import Mathlib

/-!
Verification of the analysis core of the AnalisisAfeccionFrijol application.

The development shallowly embeds the algorithmic parts of the repository:

* `src/UI/utils/plant_analyzer.py` — the `PlantAnalyzer` class: fixed HSV
  colour ranges, per-image damage analysis (`analyze_leaf_damage`), the
  cross-image rollup (`calculate_summary_statistics`) and the visualization
  saver (`save_analysis_visualization`);
* `src/UI/gui/analysis_tab.py` — the severity bucketing performed by
  `generate_general_statistics` and `create_general_stats_tab`;
* `src/UI/filtros_procesamiento.py` — the `FiltrosProcessamiento` filter bank.

Conventions of the embedding:

* Python floats are modelled as rationals (`ℚ`); machine images as lists of
  pixels.  The 2D layout of an image is irrelevant to every property treated
  here (all operations are per-pixel or reductions), so an image is a list of
  HSV pixels.  The BGR→HSV conversion performed by `cv2.cvtColor` is external
  library code; the embedding works directly on the HSV image it produces.
* `cv2.imread` failing to decode a file is modelled by the analyzer receiving
  `none` instead of an image.
* External OpenCV array primitives used by the filter bank
  (`cv2.GaussianBlur`, `cv2.Sobel`, …) are not repository code; they are
  modelled as fields of an abstract `CV2` structure, so theorems about the
  filter bank hold for every behaviour of the external library.
-/

/-- Pixel in 8-bit OpenCV HSV space (H in 0..179, S and V in 0..255).
The channel bounds are not needed by any proof, so channels are plain
naturals. -/
structure HSVPixel where
  h : ℕ
  s : ℕ
  v : ℕ
  deriving DecidableEq, Repr

/-- Per-channel inclusive lower/upper bound pair, as stored in
`PlantAnalyzer.color_ranges` (`plant_analyzer.py` lines 15–31). -/
structure ColorRange where
  lower : HSVPixel
  upper : HSVPixel
  deriving DecidableEq, Repr

/-- `color_ranges["sano"]`: lower `[35, 50, 50]`, upper `[85, 255, 255]`. -/
def sanoRange : ColorRange := ⟨⟨35, 50, 50⟩, ⟨85, 255, 255⟩⟩

/-- `color_ranges["afectado"]`: lower `[20, 50, 50]`, upper `[34, 255, 255]`. -/
def afectadoRange : ColorRange := ⟨⟨20, 50, 50⟩, ⟨34, 255, 255⟩⟩

/-- `color_ranges["severo"]`: lower `[5, 30, 20]`, upper `[19, 255, 200]`. -/
def severoRange : ColorRange := ⟨⟨5, 30, 20⟩, ⟨19, 255, 200⟩⟩

/-- `cv2.inRange` membership test for a single pixel: every channel lies
between the corresponding lower and upper bound, both inclusive. -/
def inRangeHSV (r : ColorRange) (p : HSVPixel) : Bool :=
  r.lower.h ≤ p.h && p.h ≤ r.upper.h &&
  (r.lower.s ≤ p.s && p.s ≤ r.upper.s) &&
  (r.lower.v ≤ p.v && p.v ≤ r.upper.v)

/-- An image, already converted to HSV (see the module docstring). -/
abbrev HSVImage := List HSVPixel

/-- A binary mask as produced by `cv2.inRange` over a whole image: one bit
per pixel. -/
def maskOf (r : ColorRange) (img : HSVImage) : List Bool :=
  img.map (inRangeHSV r)

/-- `cv2.countNonZero` on a binary mask. -/
def countNonZero (m : List Bool) : ℕ :=
  m.count true

/-- BGR visualization colour triple. -/
abbrev BGR := ℕ × ℕ × ℕ

/-- `visualization_colors` (`plant_analyzer.py` lines 34–38): sano green,
afectado yellow, severo dark brown, in BGR order. -/
def visualizationColors : String → BGR
  | "sano" => (0, 255, 0)
  | "afectado" => (0, 255, 255)
  | _ => (0, 0, 128)

/-- Overlay colour of one pixel.  `analyze_leaf_damage` starts from
`np.zeros_like(img)` and assigns each mask colour in the dictionary
iteration order sano, afectado, severo, so a later category overwrites an
earlier one. -/
def overlayPixel (p : HSVPixel) : BGR :=
  let c0 : BGR := (0, 0, 0)
  let c1 := if inRangeHSV sanoRange p then visualizationColors "sano" else c0
  let c2 := if inRangeHSV afectadoRange p then visualizationColors "afectado" else c1
  if inRangeHSV severoRange p then visualizationColors "severo" else c2

/-- The `overlay_mask` image built at `plant_analyzer.py` lines 91–94. -/
def overlayMaskOf (img : HSVImage) : List BGR :=
  img.map overlayPixel

/-- Result dictionary of `analyze_leaf_damage`.  The `pixel_counts` and
`overlay_mask` keys are present only in the `total_plant_pixels > 0` branch
of the source, hence the `Option` type; `none` models an absent key. -/
structure AnalysisResult where
  sano : ℚ
  afectado : ℚ
  severo : ℚ
  afectacion_total : ℚ
  total_pixels : ℕ
  pixel_counts : Option (ℕ × ℕ × ℕ)
  masks : List Bool × List Bool × List Bool
  overlay_mask : Option (List BGR)
  original_image : HSVImage
  deriving DecidableEq, Repr

/-- Pixel count of the sano mask of an image. -/
def countSano (img : HSVImage) : ℕ := countNonZero (maskOf sanoRange img)

/-- Pixel count of the afectado mask of an image. -/
def countAfectado (img : HSVImage) : ℕ := countNonZero (maskOf afectadoRange img)

/-- Pixel count of the severo mask of an image. -/
def countSevero (img : HSVImage) : ℕ := countNonZero (maskOf severoRange img)

/-- `total_plant_pixels = sum(pixel_counts.values())`
(`plant_analyzer.py` line 69). -/
def totalPlantPixels (img : HSVImage) : ℕ :=
  countSano img + countAfectado img + countSevero img

/-- Body of `analyze_leaf_damage` on a successfully decoded image
(`plant_analyzer.py` lines 57–106).  Percentages are
`count / total_plant_pixels * 100`, and `afectacion_total` is the sum of
the afectado and severo percentages. -/
def analyzeLeafDamageImg (img : HSVImage) : AnalysisResult :=
  let masks := (maskOf sanoRange img, maskOf afectadoRange img, maskOf severoRange img)
  let total := totalPlantPixels img
  if total = 0 then
    { sano := 0, afectado := 0, severo := 0, afectacion_total := 0,
      total_pixels := 0, pixel_counts := none, masks := masks,
      overlay_mask := none, original_image := img }
  else
    let pctSano : ℚ := (countSano img : ℚ) / (total : ℚ) * 100
    let pctAfectado : ℚ := (countAfectado img : ℚ) / (total : ℚ) * 100
    let pctSevero : ℚ := (countSevero img : ℚ) / (total : ℚ) * 100
    { sano := pctSano, afectado := pctAfectado, severo := pctSevero,
      afectacion_total := pctAfectado + pctSevero,
      total_pixels := total,
      pixel_counts := some (countSano img, countAfectado img, countSevero img),
      masks := masks,
      overlay_mask := some (overlayMaskOf img),
      original_image := img }

/-- `analyze_leaf_damage` including the decode step: `cv2.imread` returning
`None` (modelled as a `none` input) makes the function return `None`
(`plant_analyzer.py` lines 52–54). -/
def analyzeLeafDamage (input : Option HSVImage) : Option AnalysisResult :=
  match input with
  | none => none
  | some img => some (analyzeLeafDamageImg img)

/-- `save_analysis_visualization` (`plant_analyzer.py` lines 209–236):
returns `False` as soon as the result lacks the `overlay_mask` key, and
otherwise composes the overlay, draws the statistics text and writes the
file — external I/O with constant result `True` in the absence of an
exception. -/
def saveAnalysisVisualization (result : AnalysisResult) : Bool :=
  result.overlay_mask.isSome

/-- Summary record produced per (image number, category) by
`calculate_summary_statistics`: field means plus sample count. -/
structure SummaryRec where
  sano : ℚ
  afectado : ℚ
  severo : ℚ
  afectacion_total : ℚ
  count : ℕ
  deriving DecidableEq, Repr

/-- `np.mean` of a list of rationals: sum divided by length. -/
def meanQ (xs : List ℚ) : ℚ :=
  xs.sum / (xs.length : ℚ)

/-- Per-group body of `calculate_summary_statistics`
(`plant_analyzer.py` lines 181–192): mean of the four numeric fields over
the group and `count = len(results_list)`. -/
def summaryOfGroup (l : List AnalysisResult) : SummaryRec :=
  { sano := meanQ (l.map (·.sano)),
    afectado := meanQ (l.map (·.afectado)),
    severo := meanQ (l.map (·.severo)),
    afectacion_total := meanQ (l.map (·.afectacion_total)),
    count := l.length }

/-- Analysis results grouped by image number, then by category label, as
built by `analyze_crops_directory`.  Python dictionaries are modelled as
association lists with unique keys; `List.lookup` is dictionary access. -/
abbrev AnalysisResults := List (ℕ × List (String × List AnalysisResult))

/-- Output shape of `calculate_summary_statistics`. -/
abbrev Summary := List (ℕ × List (String × SummaryRec))

/-- `calculate_summary_statistics` (`plant_analyzer.py` lines 161–194):
every image number keeps an entry (the source sets `summary[image_num] = {}`
unconditionally); a category whose sample list is empty is skipped by the
`if not results_list: continue` guard, every other category maps to its
group summary. -/
def calculateSummaryStatistics (results : AnalysisResults) : Summary :=
  results.map fun entry =>
    (entry.1, entry.2.filterMap fun cat =>
      if cat.2.isEmpty then none else some (cat.1, summaryOfGroup cat.2))

/-- Sample analysis result carrying a prescribed `afectacion_total`; the
rollup only reads the four numeric fields, the remaining fields are
irrelevant to it. -/
def sampleResult (q : ℚ) : AnalysisResult :=
  { sano := 0, afectado := 0, severo := 0, afectacion_total := q,
    total_pixels := 0, pixel_counts := none, masks := ([], [], []),
    overlay_mask := none, original_image := [] }

/-- Concrete rollup input: three samples with `afectacion_total` 10, 20 and
30 under the single key (image 1, category "leaf"). -/
def rollupExample : AnalysisResults :=
  [(1, [("leaf", [sampleResult 10, sampleResult 20, sampleResult 30])])]

/-! Severity bucketing, from `src/UI/gui/analysis_tab.py`.  The summary fed
to it (`self.current_summary`) is the output of
`calculate_summary_statistics`. -/

/-- Bucket condition of the near-healthy band: the filter
`stats['afectacion_total'] < 10` of `generate_general_statistics`
(line 1042) and `x < 10` of `create_general_stats_tab` (line 1512). -/
def condSano (x : ℚ) : Bool := x < 10

/-- Bucket condition of the mild band: `10 <= x < 30`. -/
def condLeve (x : ℚ) : Bool := 10 ≤ x && x < 30

/-- Bucket condition of the moderate band: `30 <= x < 70`. -/
def condModerado (x : ℚ) : Bool := 30 ≤ x && x < 70

/-- Bucket condition of the severe band: `x >= 70`. -/
def condSevero (x : ℚ) : Bool := 70 ≤ x

/-- Python exceptions raised by the embedded code: the `ZeroDivisionError`
of the bucketing report and the `ValueError` raised by `aplicar_filtro` for
an unknown filter name. -/
inductive PyError where
  | zeroDivisionError
  | valueError
  deriving DecidableEq, Repr

/-- Bucket counts and count/total percentages of the severity
distribution report. -/
structure SeverityDistribution where
  sano_count : ℕ
  leve_count : ℕ
  moderado_count : ℕ
  severo_count : ℕ
  sano_pct : ℚ
  leve_pct : ℚ
  moderado_pct : ℚ
  severo_pct : ℚ
  deriving DecidableEq, Repr

/-- Every summary record of every group.  `generate_general_statistics`
first groups the records into `category_stats` keyed by category label;
its sample total and bucket counts then iterate over every record of every
group, so they only depend on this flattened list. -/
def allSummaryStats (summary : Summary) : List SummaryRec :=
  summary.flatMap fun e => e.2.map (·.2)

/-- The flat list `all_totals` built by `create_general_stats_tab`
(lines 1506–1509): every `afectacion_total` of every summary record. -/
def allTotals (summary : Summary) : List ℚ :=
  summary.flatMap fun e => e.2.map fun c => c.2.afectacion_total

/-- Severity-distribution part of `generate_general_statistics`
(`analysis_tab.py` lines 1004–1054).  The method returns at once when
`self.current_summary` is falsy (empty) — modelled by `Except.ok none`;
otherwise it counts each bucket over all records and divides each count by
`total_samples`, a division that raises `ZeroDivisionError` when the
non-empty summary holds zero records. -/
def generateGeneralStatistics (summary : Summary) :
    Except PyError (Option SeverityDistribution) :=
  if summary.isEmpty then .ok none
  else
    let stats := allSummaryStats summary
    let total := stats.length
    let sanoCount := stats.countP fun r => condSano r.afectacion_total
    let leveCount := stats.countP fun r => condLeve r.afectacion_total
    let moderadoCount := stats.countP fun r => condModerado r.afectacion_total
    let severoCount := stats.countP fun r => condSevero r.afectacion_total
    if total = 0 then .error .zeroDivisionError
    else .ok (some
      { sano_count := sanoCount, leve_count := leveCount,
        moderado_count := moderadoCount, severo_count := severoCount,
        sano_pct := (sanoCount : ℚ) / (total : ℚ) * 100,
        leve_pct := (leveCount : ℚ) / (total : ℚ) * 100,
        moderado_pct := (moderadoCount : ℚ) / (total : ℚ) * 100,
        severo_pct := (severoCount : ℚ) / (total : ℚ) * 100 })

/-- Severity-distribution block of `create_general_stats_tab`
(`analysis_tab.py` lines 1506–1523): guarded by `if all_totals:`, so with
zero samples the block is silently skipped (`none`); otherwise counts and
percentages over `all_totals`. -/
def createGeneralStatsDistribution (summary : Summary) :
    Option SeverityDistribution :=
  let all_totals := allTotals summary
  if all_totals.isEmpty then none
  else
    let total := all_totals.length
    let sanoCount := all_totals.countP condSano
    let leveCount := all_totals.countP condLeve
    let moderadoCount := all_totals.countP condModerado
    let severoCount := all_totals.countP condSevero
    some
      { sano_count := sanoCount, leve_count := leveCount,
        moderado_count := moderadoCount, severo_count := severoCount,
        sano_pct := (sanoCount : ℚ) / (total : ℚ) * 100,
        leve_pct := (leveCount : ℚ) / (total : ℚ) * 100,
        moderado_pct := (moderadoCount : ℚ) / (total : ℚ) * 100,
        severo_pct := (severoCount : ℚ) / (total : ℚ) * 100 }

/-! Filter bank, from `src/UI/filtros_procesamiento.py`.  The GUI always
hands the filters 3-channel BGR images, so the embedding models the
3-channel branch of each filter. -/

/-- A 3-channel BGR image. -/
abbrev BGRImage := List BGR

/-- A single-channel 8-bit image (after `cv2.cvtColor(..., COLOR_BGR2GRAY)`). -/
abbrev GrayImage := List ℕ

/-- A single-channel `CV_64F` image, the wide intermediate type of the edge
filters. -/
abbrev FloatImage := List ℚ

/-- External OpenCV/NumPy array primitives used by the filter bank.  They
are library code outside this repository, so they are abstract fields; the
filter theorems hold for every implementation of this interface. -/
structure CV2 where
  gaussianBlur : BGRImage → ℤ → ℚ → BGRImage
  blur : BGRImage → ℤ → BGRImage
  medianBlur : BGRImage → ℤ → BGRImage
  cvtColorGray : BGRImage → GrayImage
  cvtColorBGR : GrayImage → BGRImage
  laplacian : GrayImage → FloatImage
  sobel : GrayImage → ℕ → ℕ → FloatImage
  filter2D : GrayImage → List (List ℤ) → FloatImage
  sqrtArr : FloatImage → FloatImage

/-- Elementwise `np.sqrt(gx**2 + gy**2)` of the `ambas` branches. -/
def magnitudeCombine (cv : CV2) (gx gy : FloatImage) : FloatImage :=
  cv.sqrtArr (List.zipWith (fun a b => a * a + b * b) gx gy)

/-- Elementwise `np.abs`. -/
def absArr (l : FloatImage) : FloatImage :=
  l.map abs

/-- One element of `np.clip(x, 0, 255).astype(np.uint8)`: clamp into
`[0, 255]`, then truncate to an unsigned 8-bit integer. -/
def clipToU8 (x : ℚ) : ℕ :=
  (max 0 (min 255 x)).floor.toNat

/-- `np.clip(arr, 0, 255).astype(np.uint8)` over a `CV_64F` image. -/
def clipCastU8 (l : FloatImage) : GrayImage :=
  l.map clipToU8

/-- The loosely typed `parametros` dictionary: one optional field per key
the filter bank reads (`params.get(key, default)` is `Option.getD`). -/
structure FiltroParams where
  kernel_size : Option ℤ
  sigma : Option ℚ
  tipo : Option String
  direccion : Option String
  deriving DecidableEq, Repr

/-- `parametros_default` (`filtros_procesamiento.py` lines 24–31); the
`.get(tipo_filtro, {})` fallback is the empty record. -/
def parametrosDefault : String → FiltroParams
  | "Gaussiano" => ⟨some 5, some 1, none, none⟩
  | "Laplaciano" => ⟨none, none, some "4-conectado", none⟩
  | "Media" => ⟨some 5, none, none, none⟩
  | "Mediana" => ⟨some 5, none, none, none⟩
  | "Sobel" => ⟨none, none, none, some "ambas"⟩
  | "Prewitt" => ⟨none, none, none, some "ambas"⟩
  | _ => ⟨none, none, none, none⟩

/-- `_filtro_gaussiano` (lines 66–78): default kernel 5 and sigma 1.0, an
even kernel size is bumped to the next odd value, then `cv2.GaussianBlur`
is called. -/
def filtroGaussiano (cv : CV2) (imagen : BGRImage) (params : FiltroParams) :
    BGRImage :=
  let kernel_size := params.kernel_size.getD 5
  let sigma := params.sigma.getD 1
  let kernel_size := if kernel_size % 2 == 0 then kernel_size + 1 else kernel_size
  cv.gaussianBlur imagen kernel_size sigma

/-- `_filtro_media` (lines 80–91): same even-kernel bump, then `cv2.blur`. -/
def filtroMedia (cv : CV2) (imagen : BGRImage) (params : FiltroParams) :
    BGRImage :=
  let kernel_size := params.kernel_size.getD 5
  let kernel_size := if kernel_size % 2 == 0 then kernel_size + 1 else kernel_size
  cv.blur imagen kernel_size

/-- `_filtro_mediana` (lines 93–104): same even-kernel bump, then
`cv2.medianBlur`. -/
def filtroMediana (cv : CV2) (imagen : BGRImage) (params : FiltroParams) :
    BGRImage :=
  let kernel_size := params.kernel_size.getD 5
  let kernel_size := if kernel_size % 2 == 0 then kernel_size + 1 else kernel_size
  cv.medianBlur imagen kernel_size

/-- `_filtro_laplaciano` (lines 108–130): grayscale, `cv2.Laplacian`,
absolute value, clip/cast, replicate back to BGR.  The `tipo` parameter is
read nowhere. -/
def filtroLaplaciano (cv : CV2) (imagen : BGRImage) (_params : FiltroParams) :
    BGRImage :=
  let imagen_gris := cv.cvtColorGray imagen
  cv.cvtColorBGR (clipCastU8 (absArr (cv.laplacian imagen_gris)))

/-- `_filtro_sobel` (lines 132–161): the branch on `direccion` compares
against the literals `"x"` and `"y"`; the `else` branch — commented
`# ambas` in the source — catches every other string. -/
def filtroSobel (cv : CV2) (imagen : BGRImage) (params : FiltroParams) :
    BGRImage :=
  let direccion := params.direccion.getD "ambas"
  let imagen_gris := cv.cvtColorGray imagen
  let sobel :=
    if direccion = "x" then cv.sobel imagen_gris 1 0
    else if direccion = "y" then cv.sobel imagen_gris 0 1
    else magnitudeCombine cv (cv.sobel imagen_gris 1 0) (cv.sobel imagen_gris 0 1)
  cv.cvtColorBGR (clipCastU8 sobel)

/-- The fixed Prewitt x kernel (`filtros_procesamiento.py` lines 177–179). -/
def kernelPrewittX : List (List ℤ) := [[-1, 0, 1], [-1, 0, 1], [-1, 0, 1]]

/-- The fixed Prewitt y kernel (lines 181–183). -/
def kernelPrewittY : List (List ℤ) := [[-1, -1, -1], [0, 0, 0], [1, 1, 1]]

/-- `_filtro_prewitt` (lines 163–202): same branch structure as Sobel, with
`cv2.filter2D` against the fixed kernels and an extra `np.abs` before the
clip/cast. -/
def filtroPrewitt (cv : CV2) (imagen : BGRImage) (params : FiltroParams) :
    BGRImage :=
  let direccion := params.direccion.getD "ambas"
  let imagen_gris := cv.cvtColorGray imagen
  let prewitt :=
    if direccion = "x" then cv.filter2D imagen_gris kernelPrewittX
    else if direccion = "y" then cv.filter2D imagen_gris kernelPrewittY
    else magnitudeCombine cv (cv.filter2D imagen_gris kernelPrewittX)
      (cv.filter2D imagen_gris kernelPrewittY)
  cv.cvtColorBGR (clipCastU8 (absArr prewitt))

/-- Keys of `filtros_disponibles` (lines 14–21). -/
def filtrosDisponibles : List String :=
  ["Gaussiano", "Laplaciano", "Media", "Mediana", "Sobel", "Prewitt"]

/-- `aplicar_filtro` (lines 33–54): raises `ValueError` for an unknown
filter name, substitutes the per-filter defaults when `parametros` is
`None`, then dispatches to the filter function. -/
def aplicarFiltro (cv : CV2) (imagen : BGRImage) (tipo : String)
    (parametros : Option FiltroParams) : Except PyError BGRImage :=
  if tipo ∈ filtrosDisponibles then
    let params := parametros.getD (parametrosDefault tipo)
    .ok (if tipo = "Gaussiano" then filtroGaussiano cv imagen params
      else if tipo = "Laplaciano" then filtroLaplaciano cv imagen params
      else if tipo = "Media" then filtroMedia cv imagen params
      else if tipo = "Mediana" then filtroMediana cv imagen params
      else if tipo = "Sobel" then filtroSobel cv imagen params
      else filtroPrewitt cv imagen params)
  else .error .valueError

/-- An arbitrary concrete instantiation of the external-library interface,
used only to state closed facts about the dispatch logic. -/
def trivCV2 : CV2 where
  gaussianBlur := fun img _ _ => img
  blur := fun img _ => img
  medianBlur := fun img _ => img
  cvtColorGray := fun img => img.map (·.1)
  cvtColorBGR := fun g => g.map fun x => (x, x, x)
  laplacian := fun g => g.map fun x => (x : ℚ)
  sobel := fun g dx _ => g.map fun x => (x : ℚ) * dx
  filter2D := fun g k => g.map fun x => (x : ℚ) + k.length
  sqrtArr := fun l => l

/-- A concrete one-pixel BGR image. -/
def sampleBGRImage : BGRImage := [(10, 20, 30)]

/-- Helper: a mask over an image none of whose pixels match the range has
pixel count zero. -/
theorem countNonZero_maskOf_eq_zero (r : ColorRange) (img : HSVImage)
    (h : ∀ p ∈ img, inRangeHSV r p = false) :
    countNonZero (maskOf r img) = 0 := by
  rw [countNonZero, maskOf, List.count_eq_zero]
  intro hmem
  rcases List.mem_map.mp hmem with ⟨p, hp, hpe⟩
  rw [h p hp] at hpe
  exact Bool.false_ne_true hpe

/-- Helper: the cast of `totalPlantPixels` to `ℚ` is the sum of the three
cast pixel counts. -/
theorem totalPlantPixels_cast (img : HSVImage) :
    ((totalPlantPixels img : ℕ) : ℚ) =
      (countSano img : ℚ) + (countAfectado img : ℚ) + (countSevero img : ℚ) := by
  rw [totalPlantPixels]; push_cast; ring

/-- C1: when the total classified pixel count is positive, the sano,
afectado and severo percentages returned by `analyze_leaf_damage` sum to
exactly 100 (in the rational model of Python float arithmetic the sum is
exact, hence a fortiori within the 1e-6 tolerance of the claim), whether
or not any pixel is counted in more than one mask. -/
theorem analyze_percentage_closure (img : HSVImage)
    (h : 0 < totalPlantPixels img) :
    (analyzeLeafDamageImg img).sano + (analyzeLeafDamageImg img).afectado +
      (analyzeLeafDamageImg img).severo = 100 := by
  have hT : totalPlantPixels img ≠ 0 := Nat.pos_iff_ne_zero.mp h
  have hQ : ((totalPlantPixels img : ℕ) : ℚ) ≠ 0 := Nat.cast_ne_zero.mpr hT
  simp only [analyzeLeafDamageImg, if_neg hT]
  field_simp
  rw [totalPlantPixels_cast]
  ring

/-- Witness for C1 on a one-pixel pure-green image. -/
theorem analyze_percentage_closure_witness :
    0 < totalPlantPixels [⟨60, 200, 200⟩] ∧
      (analyzeLeafDamageImg [⟨60, 200, 200⟩]).sano +
        (analyzeLeafDamageImg [⟨60, 200, 200⟩]).afectado +
        (analyzeLeafDamageImg [⟨60, 200, 200⟩]).severo = 100 :=
  ⟨by decide, analyze_percentage_closure [⟨60, 200, 200⟩] (by decide)⟩

/-- C2: a readable image in which no pixel matches any of the three HSV
ranges is analyzed to the all-zero result: `analyze_leaf_damage` returns a
result dictionary (not `None`, which is reserved for decode failures), and
that result has all percentages and the total affectation equal to 0. -/
theorem analyze_zero_match_result (img : HSVImage)
    (h : ∀ p ∈ img, inRangeHSV sanoRange p = false ∧
      inRangeHSV afectadoRange p = false ∧ inRangeHSV severoRange p = false) :
    analyzeLeafDamage (some img) = some (analyzeLeafDamageImg img) ∧
      (analyzeLeafDamageImg img).sano = 0 ∧
      (analyzeLeafDamageImg img).afectado = 0 ∧
      (analyzeLeafDamageImg img).severo = 0 ∧
      (analyzeLeafDamageImg img).afectacion_total = 0 := by
  have hTot : totalPlantPixels img = 0 := by
    rw [totalPlantPixels, countSano, countAfectado, countSevero]
    rw [countNonZero_maskOf_eq_zero sanoRange img (fun p hp => (h p hp).1),
      countNonZero_maskOf_eq_zero afectadoRange img (fun p hp => (h p hp).2.1),
      countNonZero_maskOf_eq_zero severoRange img (fun p hp => (h p hp).2.2)]
  refine ⟨rfl, ?_⟩
  simp only [analyzeLeafDamageImg, if_pos hTot]
  refine ⟨?_, ?_, ?_, ?_⟩ <;> trivial

/-- Witness for C2 on a one-pixel all-white image (HSV `(0,0,255)`: its
saturation 0 is below every lower saturation bound). -/
theorem analyze_zero_match_result_witness :
    (∀ p ∈ ([⟨0, 0, 255⟩] : HSVImage), inRangeHSV sanoRange p = false ∧
      inRangeHSV afectadoRange p = false ∧ inRangeHSV severoRange p = false) ∧
      analyzeLeafDamage (some [⟨0, 0, 255⟩]) = some (analyzeLeafDamageImg [⟨0, 0, 255⟩]) ∧
      (analyzeLeafDamageImg [⟨0, 0, 255⟩]).sano = 0 ∧
      (analyzeLeafDamageImg [⟨0, 0, 255⟩]).afectado = 0 ∧
      (analyzeLeafDamageImg [⟨0, 0, 255⟩]).severo = 0 ∧
      (analyzeLeafDamageImg [⟨0, 0, 255⟩]).afectacion_total = 0 :=
  ⟨by decide, analyze_zero_match_result [⟨0, 0, 255⟩] (by decide)⟩

/-- C4 counterexample: the pixel `(H,S,V) = (15,100,100)` satisfies the
claimed bounds `H ∈ [15,34], S ∈ [50,255], V ∈ [50,255]` yet is NOT set in
the afectado mask, because the lower hue bound hard-coded in
`plant_analyzer.py` is 20, not 15. -/
theorem afectado_range_counterexample :
    inRangeHSV afectadoRange ⟨15, 100, 100⟩ = false ∧
      ((15 : ℕ) ≤ 15 ∧ (15 : ℕ) ≤ 34 ∧ (50 : ℕ) ≤ 100 ∧ (100 : ℕ) ≤ 255 ∧
        (50 : ℕ) ≤ 100 ∧ (100 : ℕ) ≤ 255) := by
  decide

/-- C4 amended: a pixel is set in the afectado mask iff its HSV channels
satisfy `H ∈ [20,34], S ∈ [50,255], V ∈ [50,255]`, every bound
inclusive. -/
theorem afectado_range_characterization (p : HSVPixel) :
    inRangeHSV afectadoRange p = true ↔
      (20 ≤ p.h ∧ p.h ≤ 34 ∧ 50 ≤ p.s ∧ p.s ≤ 255 ∧ 50 ≤ p.v ∧ p.v ≤ 255) := by
  simp only [inRangeHSV, afectadoRange, Bool.and_eq_true, decide_eq_true_eq]
  tauto

/-- C10: a readable image with zero classified pixels yields exactly the
reduced result dictionary — zero percentages, zero totals, the three raw
masks and the original image, with the `pixel_counts` and `overlay_mask`
keys absent — and `save_analysis_visualization` on that result returns
`False` before any file is written. -/
theorem analyze_zero_total_omits_overlay (img : HSVImage)
    (h : totalPlantPixels img = 0) :
    analyzeLeafDamageImg img =
      { sano := 0, afectado := 0, severo := 0, afectacion_total := 0,
        total_pixels := 0, pixel_counts := none,
        masks := (maskOf sanoRange img, maskOf afectadoRange img,
          maskOf severoRange img),
        overlay_mask := none, original_image := img } ∧
      saveAnalysisVisualization (analyzeLeafDamageImg img) = false := by
  simp only [analyzeLeafDamageImg, if_pos h, saveAnalysisVisualization]
  refine ⟨?_, ?_⟩ <;> trivial

/-- Witness for C10 on a one-pixel all-white image. -/
theorem analyze_zero_total_omits_overlay_witness :
    totalPlantPixels [⟨0, 0, 255⟩] = 0 ∧
      saveAnalysisVisualization (analyzeLeafDamageImg [⟨0, 0, 255⟩]) = false :=
  ⟨by decide, (analyze_zero_total_omits_overlay [⟨0, 0, 255⟩] (by decide)).2⟩

/-- Helper: looking a key up after mapping a function over the values of an
association list is mapping the function over the lookup result. -/
theorem lookup_map_value {α β γ : Type} [BEq α] (f : β → γ)
    (xs : List (α × β)) (a : α) :
    (xs.map fun e => (e.1, f e.2)).lookup a = (xs.lookup a).map f := by
  induction xs with
  | nil => rfl
  | cons x tl ih =>
    obtain ⟨k, b⟩ := x
    cases h : (a == k) <;> simp [List.lookup, h, ih]

/-- Helper: the category filter of `calculate_summary_statistics` keeps a
key bound to a non-empty sample list and maps it to its group summary. -/
theorem lookup_filterMap_summary (cats : List (String × List AnalysisResult))
    (cat : String) (l : List AnalysisResult)
    (hl : cats.lookup cat = some l) (hne : l ≠ []) :
    (cats.filterMap fun c =>
        if c.2.isEmpty then none else some (c.1, summaryOfGroup c.2)).lookup cat
      = some (summaryOfGroup l) := by
  induction cats with
  | nil => simp at hl
  | cons c tl ih =>
    obtain ⟨k, b⟩ := c
    rw [List.filterMap_cons]
    by_cases hck : cat = k
    · subst hck
      rw [List.lookup_cons, beq_self_eq_true] at hl
      have hb : b = l := Option.some.inj hl
      subst hb
      have hbe : ¬(b.isEmpty = true) := by
        cases b with
        | nil => exact absurd rfl hne
        | cons _ _ => simp
      rw [if_neg hbe]
      exact List.lookup_cons_self
    · have hbeq : (cat == k) = false := beq_false_of_ne hck
      rw [List.lookup_cons, hbeq] at hl
      by_cases hb : b.isEmpty = true
      · rw [if_pos hb]
        exact ih hl
      · rw [if_neg hb, List.lookup_cons, hbeq]
        exact ih hl

/-- C6: a group of `N ≥ 1` per-image results stored under an
(image number, category) key is rolled up by
`calculate_summary_statistics` to the arithmetic mean (sum divided by
length) of the `sano`, `afectado`, `severo` and `afectacion_total` fields
together with `count = N`. -/
theorem calculate_summary_mean (results : AnalysisResults) (n : ℕ)
    (cats : List (String × List AnalysisResult)) (cat : String)
    (l : List AnalysisResult)
    (h1 : results.lookup n = some cats) (h2 : cats.lookup cat = some l)
    (h3 : l ≠ []) :
    ((calculateSummaryStatistics results).lookup n).bind (fun s => s.lookup cat) =
      some { sano := (l.map (·.sano)).sum / (l.length : ℚ),
             afectado := (l.map (·.afectado)).sum / (l.length : ℚ),
             severo := (l.map (·.severo)).sum / (l.length : ℚ),
             afectacion_total := (l.map (·.afectacion_total)).sum / (l.length : ℚ),
             count := l.length } := by
  rw [calculateSummaryStatistics, lookup_map_value, h1]
  simp only [Option.map_some', Option.some_bind]
  rw [lookup_filterMap_summary cats cat l h2 h3]
  simp [summaryOfGroup, meanQ]

/-- Witness for C6: three samples with `afectacion_total` 10, 20, 30 under
the key (1, "leaf") roll up to mean 20 and count 3. -/
theorem calculate_summary_mean_witness :
    ((calculateSummaryStatistics rollupExample).lookup 1).bind
        (fun s => s.lookup "leaf") =
      some { sano := 0, afectado := 0, severo := 0, afectacion_total := 20,
             count := 3 } := by
  have h := calculate_summary_mean rollupExample 1
    [("leaf", [sampleResult 10, sampleResult 20, sampleResult 30])] "leaf"
    [sampleResult 10, sampleResult 20, sampleResult 30] rfl rfl (by simp)
  rw [h]
  norm_num [sampleResult]

/-- C9: every summary record emitted by `calculate_summary_statistics` has
`count ≥ 1` — groups with an empty sample list are skipped, so no record
with a zero count (or a mean over zero samples) is ever produced. -/
theorem summary_count_positive (results : AnalysisResults) (n : ℕ)
    (cats : List (String × SummaryRec))
    (hmem : (n, cats) ∈ calculateSummaryStatistics results)
    (c : String) (s : SummaryRec) (hcs : (c, s) ∈ cats) :
    1 ≤ s.count := by
  rw [calculateSummaryStatistics] at hmem
  rcases List.mem_map.mp hmem with ⟨entry, _, heq⟩
  have hcats : cats = entry.2.filterMap fun cat =>
      if cat.2.isEmpty then none else some (cat.1, summaryOfGroup cat.2) :=
    (congrArg Prod.snd heq).symm
  rw [hcats] at hcs
  rcases List.mem_filterMap.mp hcs with ⟨cat, _, hf⟩
  cases hbe : cat.2.isEmpty with
  | true => rw [if_pos hbe] at hf; exact absurd hf (by simp)
  | false =>
    rw [if_neg (by simp [hbe])] at hf
    have hs : s = summaryOfGroup cat.2 := congrArg Prod.snd (Option.some.inj hf).symm
    rw [hs]
    show 1 ≤ cat.2.length
    cases hc2 : cat.2 with
    | nil => rw [hc2] at hbe; simp at hbe
    | cons _ _ => simp

/-- Witness for C9: the single group of `rollupExample` yields a record
with count 3 ≥ 1. -/
theorem summary_count_positive_witness :
    1 ≤ (summaryOfGroup [sampleResult 10, sampleResult 20, sampleResult 30]).count :=
  summary_count_positive rollupExample 1
    [("leaf", summaryOfGroup [sampleResult 10, sampleResult 20, sampleResult 30])]
    (by simp [calculateSummaryStatistics, rollupExample])
    "leaf" (summaryOfGroup [sampleResult 10, sampleResult 20, sampleResult 30])
    (by simp)

/-- C3: the bucket filters of the severity distribution are closed on the
lower bound and open on the upper bound — a value `v` is counted
near-healthy iff `v < 10`, mild iff `10 ≤ v < 30`, moderate iff
`30 ≤ v < 70` and severe iff `v ≥ 70` — and the literal inputs 9.999, 10,
29.999, 30, 69.999, 70 fall into the bands near-healthy, mild, mild,
moderate, moderate, severe respectively. -/
theorem severity_bucket_semantics :
    (∀ v : ℚ,
      (condSano v = true ↔ v < 10) ∧
      (condLeve v = true ↔ 10 ≤ v ∧ v < 30) ∧
      (condModerado v = true ↔ 30 ≤ v ∧ v < 70) ∧
      (condSevero v = true ↔ 70 ≤ v)) ∧
    condSano (9999 / 1000) = true ∧
    condLeve 10 = true ∧ condSano 10 = false ∧
    condLeve (29999 / 1000) = true ∧
    condModerado 30 = true ∧ condLeve 30 = false ∧
    condModerado (69999 / 1000) = true ∧
    condSevero 70 = true ∧ condModerado 70 = false := by
  constructor
  · intro v
    simp [condSano, condLeve, condModerado, condSevero]
  · norm_num [condSano, condLeve, condModerado, condSevero]

/-- C5 counterexample: with zero samples the bucketing never signals an
`EmptyAggregation` error.  On the empty summary `generate_general_statistics`
returns early and silently; on the non-empty summary `{1: {}}` holding zero
records it reaches the unguarded division `sano_count/total_samples` and
raises `ZeroDivisionError`, contradicting both conjuncts of the claim. -/
theorem bucketing_zero_samples_counterexample :
    generateGeneralStatistics [(1, [])] = .error .zeroDivisionError ∧
      generateGeneralStatistics [] = .ok none := ⟨rfl, rfl⟩

/-- C5 amended: zero-sample bucketing is handled silently rather than by a
distinct error — an empty summary makes `generate_general_statistics`
return early with no distribution, an empty `all_totals` list makes
`create_general_stats_tab` skip its distribution block, and a non-empty
summary holding zero records makes `generate_general_statistics` raise
`ZeroDivisionError` at the division by `total_samples`. -/
theorem bucketing_zero_samples_behavior :
    (∀ s : Summary, s = [] → generateGeneralStatistics s = .ok none) ∧
      (∀ s : Summary, allTotals s = [] → createGeneralStatsDistribution s = none) ∧
      (∀ s : Summary, s ≠ [] → allSummaryStats s = [] →
        generateGeneralStatistics s = .error .zeroDivisionError) := by
  refine ⟨?_, ?_, ?_⟩
  · rintro s rfl
    rfl
  · intro s h
    rw [createGeneralStatsDistribution]
    simp [h]
  · intro s hne hstats
    rw [generateGeneralStatistics]
    have h1 : s.isEmpty = false := by
      cases s with
      | nil => exact absurd rfl hne
      | cons _ _ => rfl
    rw [h1]
    simp [hstats]

/-- Witness for C5 amended, at the empty summary and at the summary
`{1: {}}`. -/
theorem bucketing_zero_samples_behavior_witness :
    generateGeneralStatistics [] = .ok none ∧
      createGeneralStatsDistribution [(1, [])] = none ∧
      generateGeneralStatistics [(1, [])] = .error .zeroDivisionError :=
  ⟨bucketing_zero_samples_behavior.1 [] rfl,
   bucketing_zero_samples_behavior.2.1 [(1, [])] rfl,
   bucketing_zero_samples_behavior.2.2 [(1, [])] (by simp) rfl⟩

/-- C7: the Gaussian, Mean and Median filters bump an even kernel size to
the next odd value before calling the library primitive, so for any image
and any remaining parameters, `kernel_size = 4` produces exactly the same
output as `kernel_size = 5` — for every behaviour of the external blur
primitives. -/
theorem filter_even_kernel_bumped (cv : CV2) (imagen : BGRImage)
    (sg : Option ℚ) (t d : Option String) :
    filtroGaussiano cv imagen ⟨some 4, sg, t, d⟩ =
        filtroGaussiano cv imagen ⟨some 5, sg, t, d⟩ ∧
      filtroMedia cv imagen ⟨some 4, sg, t, d⟩ =
        filtroMedia cv imagen ⟨some 5, sg, t, d⟩ ∧
      filtroMediana cv imagen ⟨some 4, sg, t, d⟩ =
        filtroMediana cv imagen ⟨some 5, sg, t, d⟩ :=
  ⟨rfl, rfl, rfl⟩

/-- C8 counterexample: requesting Sobel or Prewitt through `aplicar_filtro`
with the invalid direction string `"diagonal"` returns an ordinary `.ok`
image — no `InvalidParameter` (nor any other) error is signalled — and the
image returned is the one of the `ambas` branch. -/
theorem invalid_direction_counterexample :
    aplicarFiltro trivCV2 sampleBGRImage "Sobel"
        (some ⟨none, none, none, some "diagonal"⟩) =
      .ok (filtroSobel trivCV2 sampleBGRImage ⟨none, none, none, some "ambas"⟩) ∧
      aplicarFiltro trivCV2 sampleBGRImage "Prewitt"
          (some ⟨none, none, none, some "diagonal"⟩) =
        .ok (filtroPrewitt trivCV2 sampleBGRImage ⟨none, none, none, some "ambas"⟩) :=
  ⟨rfl, rfl⟩

/-- C8 amended: a direction string other than `"x"` and `"y"` is not
rejected — the Sobel and Prewitt filters silently run their `else` branch
(commented `# ambas` in the source), so the result equals the one for
direction `"ambas"`, and `aplicar_filtro` wraps it in a successful
return. -/
theorem invalid_direction_falls_to_ambas (cv : CV2) (imagen : BGRImage)
    (k : Option ℤ) (sg : Option ℚ) (t : Option String) (d : String)
    (hx : d ≠ "x") (hy : d ≠ "y") :
    filtroSobel cv imagen ⟨k, sg, t, some d⟩ =
        filtroSobel cv imagen ⟨k, sg, t, some "ambas"⟩ ∧
      filtroPrewitt cv imagen ⟨k, sg, t, some d⟩ =
        filtroPrewitt cv imagen ⟨k, sg, t, some "ambas"⟩ ∧
      aplicarFiltro cv imagen "Sobel" (some ⟨k, sg, t, some d⟩) =
        .ok (filtroSobel cv imagen ⟨k, sg, t, some d⟩) ∧
      aplicarFiltro cv imagen "Prewitt" (some ⟨k, sg, t, some d⟩) =
        .ok (filtroPrewitt cv imagen ⟨k, sg, t, some d⟩) := by
  refine ⟨?_, ?_, rfl, rfl⟩
  · simp [filtroSobel, hx, hy]
  · simp [filtroPrewitt, hx, hy]

/-- Witness for C8 amended at the concrete direction `"diagonal"`. -/
theorem invalid_direction_falls_to_ambas_witness :
    filtroSobel trivCV2 sampleBGRImage ⟨none, none, none, some "diagonal"⟩ =
      filtroSobel trivCV2 sampleBGRImage ⟨none, none, none, some "ambas"⟩ :=
  (invalid_direction_falls_to_ambas trivCV2 sampleBGRImage none none none
    "diagonal" (by decide) (by decide)).1
